import Mathlib

/-!
Verification of the CashAI backend (src/server.js), focused on the
GET /api/transactions handler (lines 162-311): date-window defaulting,
coverage-gap computation, completeness metadata, and error classification.

The handler is embedded as a pure function of the parsed query, the current
date, and the Plaid client's response to the single upstream call it makes.
Dates are modelled as civil calendar dates; the ISO `YYYY-MM-DD` strings the
server manipulates are in order-preserving bijection with them, so string
comparisons and `Array.prototype.sort` on date strings become the
lexicographic order on (year, month, day).
-/

namespace CashAI

/-- A civil calendar date (no time component), the content of an ISO
`YYYY-MM-DD` string such as the `start_date` / `end_date` query parameters
and the `date` field of a Plaid transaction. -/
structure Date where
  year : Int
  month : Int
  day : Int
deriving DecidableEq

/-- Gregorian leap-year test, as used by the JS Date object. -/
def isLeapYear (y : Int) : Bool :=
  decide (y % 4 = 0 ∧ (¬ y % 100 = 0 ∨ y % 400 = 0))

/-- Number of days in a month of the proleptic Gregorian calendar used by
JS Date. -/
def daysInMonth (y m : Int) : Int :=
  if m = 2 then (if isLeapYear y then 29 else 28)
  else if m = 4 ∨ m = 6 ∨ m = 9 ∨ m = 11 then 30
  else 31

/-- Chronological order on dates: lexicographic on (year, month, day).  On the
fixed-width ISO `YYYY-MM-DD` strings handled by the server this is exactly the
string order used by the default comparator of JS `Array.prototype.sort`. -/
def dateLe (a b : Date) : Prop :=
  a.year < b.year ∨
    (a.year = b.year ∧ (a.month < b.month ∨ (a.month = b.month ∧ a.day ≤ b.day)))

instance (a b : Date) : Decidable (dateLe a b) := by
  unfold dateLe; infer_instance

/-- Insert a date into a chronologically sorted list. -/
def insertDate (x : Date) : List Date → List Date
  | [] => [x]
  | y :: ys => if dateLe x y then x :: y :: ys else y :: insertDate x ys

/-- Sorting of the transaction-date list, `dates.sort()` at src/server.js
line 223.  JS sorts the ISO strings by the string order, i.e. by `dateLe`,
which is a total antisymmetric order on dates, so any correct sort (here an
insertion sort) produces the same list. -/
def sortDates : List Date → List Date
  | [] => []
  | x :: xs => insertDate x (sortDates xs)

/-- Days since the Unix epoch 1970-01-01 of a civil date: the value
`new Date(iso).getTime() / 86400000` for an ISO date string, which JS parses
as UTC midnight.  Standard days-from-civil conversion (era = 400-year cycle of
146097 days); all divisions are floor divisions on the listed nonnegative
ranges. -/
def toEpochDay (dt : Date) : Int :=
  let y := if dt.month ≤ 2 then dt.year - 1 else dt.year
  let era := y / 400
  let yoe := y - era * 400
  let mp := (dt.month + 9) % 12
  let doy := (153 * mp + 2) / 5 + dt.day - 1
  let doe := yoe * 365 + yoe / 4 - yoe / 100 + doy
  era * 146097 + doe - 719468

/-- The quantity `(actualStart - requestedStart) / (1000 * 60 * 60 * 24)` of
src/server.js line 238.  Both operands are UTC midnights obtained from ISO
date strings, so the JS float division is exact and equals the difference of
epoch-day numbers. -/
def daysDifference (actualStart requestedStart : Date) : Int :=
  toEpochDay actualStart - toEpochDay requestedStart

/-- Effect of `start.setMonth(start.getMonth() - 6)` on the year/month part
(src/server.js line 179).  JS normalizes the month index by carrying into the
year; for a month in 1..12 the normalized result is the branch below. -/
def monthsBack6 (y m : Int) : Int × Int :=
  if 7 ≤ m then (y, m - 6) else (y - 1, m + 6)

/-- The date six calendar months before `dt`, with JS Date day-of-month
normalization: `setMonth` keeps the day number, and when the target month is
shorter the date overflows into the following month (e.g. Aug 31 minus six
months becomes Mar 2 or Mar 3).  For a day number at most 31 the overflow is
at most 3 days, so a single carry step is the exact JS behavior. -/
def sixMonthsBefore (dt : Date) : Date :=
  let ym := monthsBack6 dt.year dt.month
  if dt.day ≤ daysInMonth ym.1 ym.2 then ⟨ym.1, ym.2, dt.day⟩
  else if ym.2 = 12 then ⟨ym.1 + 1, 1, dt.day - daysInMonth ym.1 ym.2⟩
  else ⟨ym.1, ym.2 + 1, dt.day - daysInMonth ym.1 ym.2⟩

/-- A well-formed calendar date, as `new Date()` always produces. -/
def Date.Valid (dt : Date) : Prop :=
  1 ≤ dt.month ∧ dt.month ≤ 12 ∧ 1 ≤ dt.day ∧ dt.day ≤ daysInMonth dt.year dt.month

instance (dt : Date) : Decidable dt.Valid := by
  unfold Date.Valid; infer_instance

/-- Lines 173-187 of src/server.js: keep the supplied bounds when both are
present; otherwise (either one missing — JS `!startDate || !endDate`) replace
BOTH bounds by the default window `[today - 6 months, today]`, each rendered
date-only by `toISOString().split(T)[0]`. -/
def resolveWindow (start_date end_date : Option Date) (now : Date) : Date × Date :=
  match start_date, end_date with
  | some s, some e => (s, e)
  | _, _ => (sixMonthsBefore now, now)

/-- The query parameters of GET /api/transactions (src/server.js line 164).
An absent query parameter destructures to `undefined` in JS; both `undefined`
and the empty string are falsy in every guard the handler uses, so a missing
`access_token` is modelled as `""` and missing dates as `none`. -/
structure TransactionsQuery where
  access_token : String
  start_date : Option Date
  end_date : Option Date
  count : Option Int
  offset : Option Int

/-- The argument object of `plaidClient.transactionsGet` (src/server.js lines
195-203), with the `options` nesting flattened. -/
structure GatewayCall where
  access_token : String
  start_date : Date
  end_date : Date
  count : Int
  offset : Int
deriving DecidableEq

/-- A transaction record as returned by the provider.  Only its `date` is ever
inspected by the server; the remaining provider fields (id, amount, account
reference, description, category, ...) are passed through untouched and are
collapsed into one opaque payload. -/
structure Transaction where
  date : Date
  payload : String
deriving DecidableEq

/-- The `response.data` of a successful `transactionsGet` call.  The
`transactions` and `total_transactions` fields may be absent (the server
applies `|| []` and `|| 0`); `accounts` and `item` are opaque pass-through
values. -/
structure TransactionsGetData where
  transactions : Option (List Transaction)
  total_transactions : Option Int
  accounts : String
  item : String
deriving DecidableEq

/-- The error thrown by the Plaid client: `error.message` plus the optional
`error.response` HTTP status and Plaid error body fields, each of which the
handler reads with optional chaining (`error.response?.status`,
`error.response?.data?.error_code`, ...). -/
structure PlaidError where
  status : Option Nat
  error_code : Option String
  error_type : Option String
  error_message : Option String
  message : String
deriving DecidableEq

/-- Outcome of the upstream `transactionsGet` call: the promise resolves with
data or throws an error. -/
inductive PlaidResult where
  | ok (data : TransactionsGetData)
  | thrown (e : PlaidError)
deriving DecidableEq

/-- The JSON bodies the GET /api/transactions handler can send. -/
inductive ResponseBody where
  | missingToken
  | success (transactions : List Transaction) (total_transactions : Int)
      (accounts item : String) (data_complete : Bool)
      (requested_start_date requested_end_date : Date)
      (has_more_data_coming : Bool)
  | notReady (error error_code message : String)
  | failure (error : String)
      (error_code error_type error_message : Option String) (details : String)
deriving DecidableEq

/-- An HTTP response: status code plus JSON body. -/
structure HttpResponse where
  status : Nat
  body : ResponseBody
deriving DecidableEq

/-- The `transactionsGet` request the handler builds (src/server.js lines
195-203): resolved window, plus count/offset defaulting from the
destructuring defaults at line 164. -/
def gatewayCall (q : TransactionsQuery) (now : Date) : GatewayCall :=
  { access_token := q.access_token
    start_date := (resolveWindow q.start_date q.end_date now).1
    end_date := (resolveWindow q.start_date q.end_date now).2
    count := q.count.getD 500
    offset := q.offset.getD 0 }

/-- The completeness check of src/server.js lines 221-257: `false` when no
transactions were returned; otherwise compare the oldest returned date
(`dates.sort()` then `dates[0]`) against the requested start and flag
incompleteness when the gap exceeds 30 days. -/
def hasIncompleteData (transactions : List Transaction) (requestedStart : Date) : Bool :=
  match (sortDates (transactions.map (fun t => t.date))).head? with
  | none => false
  | some oldestDate => decide (30 < daysDifference oldestDate requestedStart)

/-- The GET /api/transactions handler (src/server.js lines 162-311) as a
function of the parsed query, the current date, and the provider `gw` (the
Plaid client, invoked exactly once, on `gatewayCall q now`). -/
def handleTransactions (q : TransactionsQuery) (now : Date)
    (gw : GatewayCall → PlaidResult) : HttpResponse :=
  if q.access_token = "" then
    { status := 400, body := .missingToken }
  else
    match gw (gatewayCall q now) with
    | .ok data =>
        let transactions := data.transactions.getD []
        let totalTransactions := data.total_transactions.getD 0
        let incomplete := hasIncompleteData transactions (gatewayCall q now).start_date
        { status := 200
          body := .success transactions totalTransactions data.accounts data.item
              (!incomplete) (gatewayCall q now).start_date (gatewayCall q now).end_date
              incomplete }
    | .thrown e =>
        if e.error_code = some "PRODUCT_NOT_READY" then
          { status := 202
            body := .notReady "PRODUCT_NOT_READY" "PRODUCT_NOT_READY"
                "Transaction data is still being processed. Please try again in a few moments." }
        else
          { status := e.status.getD 500
            body := .failure "Failed to fetch transactions" e.error_code e.error_type
                e.error_message e.message }

/-- The `data_complete` field of a response body, when present. -/
def dataCompleteOf (r : HttpResponse) : Option Bool :=
  match r.body with
  | .success _ _ _ _ dc _ _ _ => some dc
  | _ => none

/-- The `has_more_data_coming` field of a response body, when present. -/
def hasMoreOf (r : HttpResponse) : Option Bool :=
  match r.body with
  | .success _ _ _ _ _ _ _ hm => some hm
  | _ => none

/-- The `transactions` field of a response body, when present. -/
def transactionsOf (r : HttpResponse) : Option (List Transaction) :=
  match r.body with
  | .success ts _ _ _ _ _ _ _ => some ts
  | _ => none

/-- The `total_transactions` field of a response body, when present. -/
def totalOf (r : HttpResponse) : Option Int :=
  match r.body with
  | .success _ tot _ _ _ _ _ _ => some tot
  | _ => none

/-- A fixed current date used by the concrete witnesses. -/
def nowX : Date := ⟨2024, 6, 15⟩

/-- A well-formed query: token present, window 2023-09-01 .. 2024-03-20. -/
def qStd : TransactionsQuery := ⟨"token", some ⟨2023, 9, 1⟩, some ⟨2024, 3, 20⟩, none, none⟩

/-- A query with a missing (empty) access token. -/
def qNoToken : TransactionsQuery := ⟨"", some ⟨2023, 9, 1⟩, some ⟨2024, 3, 20⟩, none, none⟩

/-- A query that supplies only the end bound of the window. -/
def qNoStart : TransactionsQuery := ⟨"token", none, some ⟨2024, 3, 20⟩, none, none⟩

/-- A query whose supplied window is out of order (start after end). -/
def qBackwards : TransactionsQuery := ⟨"token", some ⟨2024, 5, 1⟩, some ⟨2024, 1, 1⟩, none, none⟩

/-- Provider data: zero records while five are reported available. -/
def dataEmpty : TransactionsGetData := ⟨some [], some 5, "accts", "item"⟩

/-- Provider data: one record dated four days after the requested start of `qStd`. -/
def dataOne : TransactionsGetData := ⟨some [⟨⟨2023, 9, 5⟩, "t1"⟩], some 1, "accts", "item"⟩

/-- Provider data: records dated 2024-01-05 and 2024-03-20, the scenario of the
spec's 127-day example. -/
def dataTwo : TransactionsGetData :=
  ⟨some [⟨⟨2024, 1, 5⟩, "t1"⟩, ⟨⟨2024, 3, 20⟩, "t2"⟩], some 2, "accts", "item"⟩

/-- A provider that resolves with `dataEmpty`. -/
def gwEmpty : GatewayCall → PlaidResult := fun _ => .ok dataEmpty

/-- A provider that resolves with `dataOne`. -/
def gwOne : GatewayCall → PlaidResult := fun _ => .ok dataOne

/-- A provider that resolves with `dataTwo`. -/
def gwTwo : GatewayCall → PlaidResult := fun _ => .ok dataTwo

/-- A PRODUCT_NOT_READY error, thrown by the provider with HTTP status 400. -/
def errNotReady : PlaidError :=
  ⟨some 400, some "PRODUCT_NOT_READY", some "ITEM_ERROR",
   some "the requested product is not yet ready", "Request failed with status code 400"⟩

/-- A provider that throws `errNotReady`. -/
def gwNotReady : GatewayCall → PlaidResult := fun _ => .thrown errNotReady

/-- A rate-limit error, thrown by the provider with HTTP status 429. -/
def errRate : PlaidError :=
  ⟨some 429, some "RATE_LIMIT_EXCEEDED", some "RATE_LIMIT",
   some "rate limit exceeded", "Request failed with status code 429"⟩

/-- A provider that throws `errRate`. -/
def gwRate : GatewayCall → PlaidResult := fun _ => .thrown errRate

/-- Every month has between 28 and 31 days. -/
theorem daysInMonth_bounds (y m : Int) : 28 ≤ daysInMonth y m ∧ daysInMonth y m ≤ 31 := by
  unfold daysInMonth
  split_ifs <;> omega

/-- December has 31 days. -/
theorem daysInMonth_december (y : Int) : daysInMonth y 12 = 31 := by
  unfold daysInMonth
  norm_num

/-- Going back six calendar months (with JS setMonth normalization) never moves
a valid date forward. -/
theorem sixMonthsBefore_dateLe (dt : Date) (h : dt.Valid) : dateLe (sixMonthsBefore dt) dt := by
  obtain ⟨y, m, d⟩ := dt
  obtain ⟨h1, h2, h3, h4⟩ := h
  simp only at h1 h2 h3 h4
  have hb := daysInMonth_bounds y m
  unfold sixMonthsBefore monthsBack6
  by_cases h7 : 7 ≤ m
  · simp only [h7, if_true]
    split_ifs with hr h12
    · unfold dateLe; dsimp only; omega
    · unfold dateLe; dsimp only; omega
    · unfold dateLe; dsimp only; omega
  · simp only [h7, if_false]
    split_ifs with hr h12
    · unfold dateLe; dsimp only; omega
    · exfalso
      have hm6 : m = 6 := by omega
      subst hm6
      norm_num at hr
      have h31 := daysInMonth_december (y - 1)
      omega
    · unfold dateLe; dsimp only; omega

/-- Membership after inserting into a sorted list. -/
theorem mem_insertDate {a x : Date} : ∀ {l : List Date}, a ∈ insertDate x l → a = x ∨ a ∈ l
  | [], h => by simp [insertDate] at h; simp [h]
  | y :: ys, h => by
      unfold insertDate at h
      split_ifs at h
      · rcases List.mem_cons.mp h with h | h
        · exact Or.inl h
        · exact Or.inr h
      · rcases List.mem_cons.mp h with h | h
        · exact Or.inr (List.mem_cons.mpr (Or.inl h))
        · rcases mem_insertDate h with h | h
          · exact Or.inl h
          · exact Or.inr (List.mem_cons.mpr (Or.inr h))

/-- Every element of the sorted date list comes from the original list. -/
theorem mem_sortDates {a : Date} : ∀ {l : List Date}, a ∈ sortDates l → a ∈ l
  | [], h => by simp [sortDates] at h
  | x :: xs, h => by
      unfold sortDates at h
      rcases mem_insertDate h with h | h
      · exact List.mem_cons.mpr (Or.inl h)
      · exact List.mem_cons.mpr (Or.inr (mem_sortDates h))

/-- C1 (amended). A successful retrieval that returns zero records is always
reported complete (`data_complete = true`, `has_more_data_coming = false`),
regardless of the provider-reported total: the handler computes its
incompleteness flag only when `transactions.length > 0`, so an empty result is
never conditioned on `total_transactions = 0`. -/
theorem C1_empty_result_always_complete (q : TransactionsQuery) (now : Date)
    (gw : GatewayCall → PlaidResult) (data : TransactionsGetData)
    (hq : q.access_token ≠ "")
    (hgw : gw (gatewayCall q now) = .ok data)
    (hempty : data.transactions.getD [] = []) :
    dataCompleteOf (handleTransactions q now gw) = some true ∧
    hasMoreOf (handleTransactions q now gw) = some false := by
  unfold handleTransactions
  rw [if_neg hq, hgw]
  simp [dataCompleteOf, hasMoreOf, hasIncompleteData, hempty, sortDates]

/-- C1 (counterexample). With zero returned records and a provider-reported
total of 5 (> 0), the response says `data_complete = true`, contradicting the
claim that such an outcome is treated as incomplete. -/
theorem C1_counterexample :
    transactionsOf (handleTransactions qStd nowX gwEmpty) = some [] ∧
    totalOf (handleTransactions qStd nowX gwEmpty) = some 5 ∧
    dataCompleteOf (handleTransactions qStd nowX gwEmpty) = some true ∧
    ¬ dataCompleteOf (handleTransactions qStd nowX gwEmpty) = some false := by decide

/-- C1 witness: the amended theorem evaluated at a concrete empty result. -/
theorem C1_empty_result_always_complete_witness :
    dataCompleteOf (handleTransactions qStd nowX gwEmpty) = some true ∧
    hasMoreOf (handleTransactions qStd nowX gwEmpty) = some false :=
  C1_empty_result_always_complete qStd nowX gwEmpty dataEmpty (by decide) rfl rfl

/-- C2. For every successful retrieval returning at least one record (`o` is
the oldest returned date, the head of the sorted date list), the completeness
verdict satisfies: `data_complete = true` iff the coverage gap from the
requested start to `o`, clamped below at 0, is at most the 30-day tolerance;
and if every returned record lies within 10 days of the requested start the
result is reported complete. -/
theorem C2_tolerance_iff (q : TransactionsQuery) (now : Date)
    (gw : GatewayCall → PlaidResult) (data : TransactionsGetData) (o : Date)
    (hq : q.access_token ≠ "")
    (hgw : gw (gatewayCall q now) = .ok data)
    (ho : (sortDates ((data.transactions.getD []).map (fun t => t.date))).head? = some o) :
    dataCompleteOf (handleTransactions q now gw) =
      some (decide (max 0 (daysDifference o (resolveWindow q.start_date q.end_date now).1) ≤ 30)) ∧
    ((∀ t ∈ data.transactions.getD [],
        daysDifference t.date (resolveWindow q.start_date q.end_date now).1 ≤ 10) →
      dataCompleteOf (handleTransactions q now gw) = some true) := by
  have hmain : dataCompleteOf (handleTransactions q now gw) =
      some (!decide (30 < daysDifference o (resolveWindow q.start_date q.end_date now).1)) := by
    unfold handleTransactions
    rw [if_neg hq, hgw]
    simp only [dataCompleteOf, gatewayCall]
    unfold hasIncompleteData
    rw [ho]
  constructor
  · rw [hmain]
    congr 1
    rw [← decide_not]
    exact decide_eq_decide.mpr (by omega)
  · intro hall
    have hmem : o ∈ sortDates ((data.transactions.getD []).map (fun t => t.date)) :=
      List.mem_of_mem_head? (by rw [ho]; rfl)
    obtain ⟨t, ht, hto⟩ := List.mem_map.mp (mem_sortDates hmem)
    have h10 : daysDifference o (resolveWindow q.start_date q.end_date now).1 ≤ 10 :=
      hto ▸ hall t ht
    rw [hmain]
    simp
    omega

/-- C2 witness: one record four days after the requested start is complete. -/
theorem C2_tolerance_iff_witness :
    dataCompleteOf (handleTransactions qStd nowX gwOne) = some true := by
  have h := C2_tolerance_iff qStd nowX gwOne dataOne ⟨2023, 9, 5⟩ (by decide) rfl rfl
  exact h.2 (by decide)

/-- C3 (counterexample). The coverage gap from 2023-09-01 to 2024-01-05 is 126
days, not the 127 claimed (Sep 30 + Oct 31 + Nov 30 + Dec 31 + 4 = 126). -/
theorem C3_counterexample :
    daysDifference ⟨2024, 1, 5⟩ ⟨2023, 9, 1⟩ = 126 ∧
    ¬ daysDifference ⟨2024, 1, 5⟩ ⟨2023, 9, 1⟩ = 127 := by decide

/-- C3 (amended). For records dated 2024-01-05 and 2024-03-20 with requested
window 2023-09-01 .. 2024-03-20, the computed coverage gap is 126 days and the
result is reported incomplete (gap exceeds the 30-day tolerance). -/
theorem C3_gap_is_126 :
    daysDifference ⟨2024, 1, 5⟩ ⟨2023, 9, 1⟩ = 126 ∧
    dataCompleteOf (handleTransactions qStd nowX gwTwo) = some false ∧
    hasMoreOf (handleTransactions qStd nowX gwTwo) = some true := by decide

/-- C4. Whenever the provider throws an error whose `error_code` is
PRODUCT_NOT_READY, the handler answers 202 with the retry message — never the
generic failure branch — regardless of the HTTP status the provider used
(`e.status` is arbitrary). -/
theorem C4_product_not_ready (q : TransactionsQuery) (now : Date)
    (gw : GatewayCall → PlaidResult) (e : PlaidError)
    (hq : q.access_token ≠ "")
    (hgw : gw (gatewayCall q now) = .thrown e)
    (hcode : e.error_code = some "PRODUCT_NOT_READY") :
    handleTransactions q now gw =
      ⟨202, .notReady "PRODUCT_NOT_READY" "PRODUCT_NOT_READY"
        "Transaction data is still being processed. Please try again in a few moments."⟩ := by
  unfold handleTransactions
  rw [if_neg hq, hgw]
  simp [hcode]

/-- C4 witness: a PRODUCT_NOT_READY error thrown with HTTP status 400 still
yields the 202 not-ready response. -/
theorem C4_product_not_ready_witness :
    handleTransactions qStd nowX gwNotReady =
      ⟨202, .notReady "PRODUCT_NOT_READY" "PRODUCT_NOT_READY"
        "Transaction data is still being processed. Please try again in a few moments."⟩ :=
  C4_product_not_ready qStd nowX gwNotReady errNotReady (by decide) rfl rfl

/-- C5. Whenever either window bound is missing, the resolved window is exactly
`[today - 6 calendar months, today]` (month subtraction with JS setMonth
day-overflow normalization), independently of any bound that was supplied:
the right-hand side does not mention the supplied bounds, so a supplied bound
is superseded, and the resolution is a function of `now` alone. -/
theorem C5_default_window (sd ed : Option Date) (now : Date)
    (h : sd = none ∨ ed = none) :
    resolveWindow sd ed now = (sixMonthsBefore now, now) := by
  cases sd with
  | none => cases ed <;> rfl
  | some s =>
    cases ed with
    | none => rfl
    | some e => rcases h with h | h <;> simp at h

/-- C5 witness: a request supplying only the end bound is resolved to the
default window. -/
theorem C5_default_window_witness :
    resolveWindow qNoStart.start_date qNoStart.end_date nowX = (sixMonthsBefore nowX, nowX) :=
  C5_default_window qNoStart.start_date qNoStart.end_date nowX (Or.inl rfl)

/-- C6. For a request supplying both bounds with start ≤ end, the window of the
`transactionsGet` call equals the input window unchanged. -/
theorem C6_window_unchanged (q : TransactionsQuery) (now : Date) (a b : Date)
    (hs : q.start_date = some a) (he : q.end_date = some b) (hle : dateLe a b) :
    (gatewayCall q now).start_date = a ∧ (gatewayCall q now).end_date = b := by
  constructor <;> simp [gatewayCall, resolveWindow, hs, he]

/-- C6 witness: the standard query's window is forwarded unchanged. -/
theorem C6_window_unchanged_witness :
    (gatewayCall qStd nowX).start_date = ⟨2023, 9, 1⟩ ∧
    (gatewayCall qStd nowX).end_date = ⟨2024, 3, 20⟩ :=
  C6_window_unchanged qStd nowX ⟨2023, 9, 1⟩ ⟨2024, 3, 20⟩ rfl rfl (by decide)

/-- C7 (counterexample). A request supplying start 2024-05-01 and end
2024-01-01 is forwarded to the Gateway with start after end: the handler never
validates the order of supplied bounds, so the claimed invariant fails. -/
theorem C7_counterexample :
    ¬ dateLe (gatewayCall qBackwards nowX).start_date (gatewayCall qBackwards nowX).end_date := by
  decide

/-- C7 (amended). The resolved window satisfies start ≤ end whenever either
bound is missing (the defaulted window always does, for any valid current
date) or the supplied bounds already satisfy start ≤ end; the handler performs
no reordering or validation of supplied bounds. -/
theorem C7_window_invariant (sd ed : Option Date) (now : Date) (hnow : now.Valid)
    (h : sd = none ∨ ed = none ∨ ∃ a b, sd = some a ∧ ed = some b ∧ dateLe a b) :
    dateLe (resolveWindow sd ed now).1 (resolveWindow sd ed now).2 := by
  cases sd with
  | none => cases ed <;> exact sixMonthsBefore_dateLe now hnow
  | some s =>
    cases ed with
    | none => exact sixMonthsBefore_dateLe now hnow
    | some e =>
      rcases h with h | h | ⟨a, b, ha, hb, hab⟩
      · simp at h
      · simp at h
      · obtain rfl := Option.some.inj ha
        obtain rfl := Option.some.inj hb
        exact hab

/-- C7 witness: the amended invariant at a concrete ordered window. -/
theorem C7_window_invariant_witness :
    dateLe (resolveWindow (some ⟨2023, 9, 1⟩) (some ⟨2024, 3, 20⟩) nowX).1
      (resolveWindow (some ⟨2023, 9, 1⟩) (some ⟨2024, 3, 20⟩) nowX).2 :=
  C7_window_invariant (some ⟨2023, 9, 1⟩) (some ⟨2024, 3, 20⟩) nowX (by decide)
    (Or.inr (Or.inr ⟨⟨2023, 9, 1⟩, ⟨2024, 3, 20⟩, rfl, rfl, by decide⟩))

/-- C8. A request with an empty (or missing, which destructures to a falsy
value) access token is answered 400 before any Gateway call: the response is
the same for every provider `gw`, so the provider is never consulted. -/
theorem C8_missing_token (q : TransactionsQuery) (now : Date)
    (gw gw2 : GatewayCall → PlaidResult)
    (hq : q.access_token = "") :
    handleTransactions q now gw = ⟨400, .missingToken⟩ ∧
    handleTransactions q now gw = handleTransactions q now gw2 := by
  constructor <;> simp [handleTransactions, hq]

/-- C8 witness: the token-less query gets 400 whether the provider would have
resolved or thrown. -/
theorem C8_missing_token_witness :
    handleTransactions qNoToken nowX gwEmpty = ⟨400, .missingToken⟩ ∧
    handleTransactions qNoToken nowX gwEmpty = handleTransactions qNoToken nowX gwNotReady :=
  C8_missing_token qNoToken nowX gwEmpty gwNotReady rfl

/-- C9. Every thrown provider error other than PRODUCT_NOT_READY is relayed
with the provider's error code, type, and message in the body, under the
provider's original HTTP status, falling back to 500 (`Option.getD`) only when
the provider supplied no status. -/
theorem C9_failure_preserves_provider_detail (q : TransactionsQuery) (now : Date)
    (gw : GatewayCall → PlaidResult) (e : PlaidError)
    (hq : q.access_token ≠ "")
    (hgw : gw (gatewayCall q now) = .thrown e)
    (hcode : e.error_code ≠ some "PRODUCT_NOT_READY") :
    handleTransactions q now gw =
      ⟨e.status.getD 500,
       .failure "Failed to fetch transactions" e.error_code e.error_type
         e.error_message e.message⟩ := by
  unfold handleTransactions
  rw [if_neg hq, hgw]
  simp [hcode]

/-- C9 witness: a rate-limit error with provider status 429 is relayed as 429
with the provider's code and message. -/
theorem C9_failure_preserves_provider_detail_witness :
    handleTransactions qStd nowX gwRate =
      ⟨errRate.status.getD 500,
       .failure "Failed to fetch transactions" errRate.error_code errRate.error_type
         errRate.error_message errRate.message⟩ :=
  C9_failure_preserves_provider_detail qStd nowX gwRate errRate (by decide) rfl (by decide)

/-- C10. In every HTTP 200 response the two completeness fields are exact
negations: `data_complete = not has_more_data_coming`. -/
theorem C10_complete_negates_has_more (q : TransactionsQuery) (now : Date)
    (gw : GatewayCall → PlaidResult) (dc hm : Bool)
    (hstatus : (handleTransactions q now gw).status = 200)
    (hdc : dataCompleteOf (handleTransactions q now gw) = some dc)
    (hhm : hasMoreOf (handleTransactions q now gw) = some hm) :
    dc = !hm := by
  by_cases hq : q.access_token = ""
  · unfold handleTransactions at hdc
    rw [if_pos hq] at hdc
    simp [dataCompleteOf] at hdc
  · cases hg : gw (gatewayCall q now) with
    | ok data =>
      unfold handleTransactions at hdc hhm
      rw [if_neg hq, hg] at hdc hhm
      simp [dataCompleteOf, hasMoreOf] at hdc hhm
      rw [hdc] at hhm
      subst hhm
      simp
    | thrown e =>
      unfold handleTransactions at hdc
      rw [if_neg hq, hg] at hdc
      by_cases hc : e.error_code = some "PRODUCT_NOT_READY" <;>
        simp [hc, dataCompleteOf] at hdc

/-- C10 witness: a concrete 200 response where the fields are true and false. -/
theorem C10_complete_negates_has_more_witness :
    dataCompleteOf (handleTransactions qStd nowX gwOne) = some true ∧
    (true : Bool) = !false :=
  ⟨by decide, C10_complete_negates_has_more qStd nowX gwOne true false rfl rfl rfl⟩

end CashAI
